import Mathlib

/-!
Shallow embedding of the rwkv.cpp single-token inference engine
(file codec, type registry, evaluator, quantizer, error handling),
translated from `rwkv.cpp`, together with theorems settling the
spec claims about it.
-/

namespace Rwkv

/-! ### Error taxonomy

The C code stores errors as a bitmask `rwkv_error_flags` that functions OR
flags into.  The enum itself lives in `rwkv.h`, which is not part of the
sources; we model the error word as a finite set of kinds (OR = union,
`NONE` = the empty set), with the kinds listed by the spec's error taxonomy. -/

/-- Modelled from the spec: the error kinds of `rwkv_error_flags` from
`rwkv.h` (declarations only, not under the sources); the spec lists the
kinds `NONE, ARGS, FILE, ..., GRAPH`; `NONE` is represented by the empty
set of kinds. -/
inductive ErrKind where
  | args | file | fileOpen | fileStat | fileRead | fileWrite
  | fileMagic | fileVersion | modelParams | paramMissing
  | shape | dimension | key | data | dataType | unsupported
  | alloc | ctx | graph
deriving DecidableEq, Repr

/-- An error word: the set of error kinds OR-ed together so far. -/
abbrev ErrFlags := Finset ErrKind

instance {ε α : Type} [DecidableEq ε] [DecidableEq α] :
    DecidableEq (Except ε α) := fun a b =>
  match a, b with
  | .error e1, .error e2 =>
    if h : e1 = e2 then isTrue (congrArg Except.error h)
    else isFalse fun hc => h (by cases hc; rfl)
  | .error _, .ok _ => isFalse fun hc => Except.noConfusion hc
  | .ok _, .error _ => isFalse fun hc => Except.noConfusion hc
  | .ok a1, .ok a2 =>
    if h : a1 = a2 then isTrue (congrArg Except.ok h)
    else isFalse fun hc => h (by cases hc; rfl)

/-! ### Type registry (`enum rwkv_type`, `type_to_ggml`, `ggml` types) -/

/-- On-disk type codes, from `enum rwkv_type` in `rwkv.cpp`:
`F32=0, F16=1, Q4_0=2, Q4_1=3, Q4_1_O=4, Q4_2=5, Q4_3=6, Q5_0=7, Q5_1=8,
Q8_0=9, COUNT=10`.  We keep them as numerals, as the file stores them. -/
def TYPE_F32 : ℕ := 0
def TYPE_F16 : ℕ := 1
def TYPE_Q4_0 : ℕ := 2
def TYPE_Q4_1 : ℕ := 3
def TYPE_Q4_1_O : ℕ := 4
def TYPE_Q4_2 : ℕ := 5
def TYPE_Q4_3 : ℕ := 6
def TYPE_Q5_0 : ℕ := 7
def TYPE_Q5_1 : ℕ := 8
def TYPE_Q8_0 : ℕ := 9
def TYPE_COUNT : ℕ := 10
def TYPE_UNKNOWN : ℕ := TYPE_COUNT

/-- Backend (ggml) type codes that `type_to_ggml` maps into.  `UNKNOWN`
stands for the sentinel `GGML_TYPE_UNKNOWN = GGML_TYPE_COUNT` used in
`rwkv.cpp` for removed formats. -/
inductive GgmlType where
  | F32 | F16 | Q4_0 | Q4_1 | Q5_0 | Q5_1 | Q8_0 | UNKNOWN
deriving DecidableEq, Repr

/-- The table `type_to_ggml` from `rwkv.cpp`: maps on-disk type codes to
backend codes; the removed formats `Q4_1_O, Q4_2, Q4_3` map to the unknown
sentinel.  The C table is only indexed at codes `≤ TYPE_COUNT`; we totalize
with the sentinel. -/
def type_to_ggml : ℕ → GgmlType
  | 0 => .F32
  | 1 => .F16
  | 2 => .Q4_0
  | 3 => .Q4_1
  | 4 => .UNKNOWN
  | 5 => .UNKNOWN
  | 6 => .UNKNOWN
  | 7 => .Q5_0
  | 8 => .Q5_1
  | 9 => .Q8_0
  | _ => .UNKNOWN

/-- Modelled from the spec: `ggml_is_quantized` of the external ggml
backend — true exactly on the quantized block formats, false on the plain
float types and on the unknown sentinel. -/
def ggml_is_quantized : GgmlType → Bool
  | .Q4_0 | .Q4_1 | .Q5_0 | .Q5_1 | .Q8_0 => true
  | _ => false

/-- The human-readable name table `type_to_string` from `rwkv.cpp`. -/
def type_to_string : ℕ → String
  | 0 => "f32"
  | 1 => "f16"
  | 2 => "Q4_0"
  | 3 => "Q4_1"
  | 4 => "Q4_1_O"
  | 5 => "Q4_2"
  | 6 => "Q4_3"
  | 7 => "Q5_0"
  | 8 => "Q5_1"
  | 9 => "Q8_0"
  | _ => "unknown"

/-! ### File header -/

/-- Modelled from the spec: the file-format constants from `rwkv.h`
(declarations only, not under the sources).  The spec fixes a 32-bit magic
constant and a supported version range `[MIN, MAX]`, with version 1 the
version that introduced the current quantization formats and the latest
version the one the quantizer writes. -/
def RWKV_FILE_MAGIC : ℕ := 0x67676d66

/-- Modelled from the spec: the oldest supported file version. -/
def RWKV_FILE_VERSION_MIN : ℕ := 100

/-- Modelled from the spec: file version 1 (the first version whose
quantized formats are still supported). -/
def RWKV_FILE_VERSION_1 : ℕ := 101

/-- Modelled from the spec: the newest supported file version. -/
def RWKV_FILE_VERSION_MAX : ℕ := 101

/-- Modelled from the spec: the version the quantizer writes (the latest). -/
def RWKV_FILE_VERSION : ℕ := 101

/-- Structure `file_header` from `rwkv.cpp`: magic, version, vocabulary size,
embedding width, layer count, data-type code (all `uint32`). -/
structure FileHeader where
  magic : ℕ
  version : ℕ
  n_vocab : ℕ
  n_embed : ℕ
  n_layer : ℕ
  data_type : ℕ
deriving DecidableEq, Repr

/-- Function `is_file_version_in_range` from `rwkv.cpp`. -/
def is_file_version_in_range (version : ℕ) : Bool :=
  RWKV_FILE_VERSION_MIN ≤ version && version ≤ RWKV_FILE_VERSION_MAX

/-- The distinct failure exits of `fread_file_header`, one constructor per
assert site (so that the two DATA_TYPE messages — "format was removed"
vs. "created with an old version of rwkv.cpp" — stay distinguishable). -/
inductive FhErr where
  | readFail
  | badMagic
  | badVersion
  | typeOutOfRange
  | formatRemoved (data_type : ℕ)
  | oldQuantizer (data_type : ℕ)
deriving DecidableEq, Repr

/-- The error flags each `fread_file_header` exit ORs into the last-error
word (the `ERR_VAL` argument of the corresponding `RWKV_ASSERT`). -/
def FhErr.flags : FhErr → ErrFlags
  | .readFail => {.fileRead}
  | .badMagic => {.fileMagic}
  | .badVersion => {.fileVersion}
  | .typeOutOfRange => {.dataType}
  | .formatRemoved _ => {.dataType}
  | .oldQuantizer _ => {.dataType}

/-- Function `fread_file_header` from `rwkv.cpp`, acting on an already-read header
record (the raw `fread` itself is I/O; its failure is the `readFail` exit,
not reachable from a parsed record).  Checks, in code order: magic;
version within `[MIN, MAX]`; `data_type < TYPE_COUNT`; then, only when
`verify_data_type` is set: the backend code is not the unknown sentinel
(removed format), and not (quantized and `version != RWKV_FILE_VERSION_1`)
(file from an old quantizer). -/
def fread_file_header (header : FileHeader) (verify_data_type : Bool) :
    Except FhErr FileHeader :=
  if ¬ (header.magic = RWKV_FILE_MAGIC) then .error .badMagic
  else if ¬ (is_file_version_in_range header.version) then .error .badVersion
  else if ¬ (header.data_type < TYPE_COUNT) then .error .typeOutOfRange
  else if verify_data_type then
    let g := type_to_ggml header.data_type
    if ¬ (g ≠ GgmlType.UNKNOWN) then .error (.formatRemoved header.data_type)
    else if ¬ (¬ ggml_is_quantized g ∨ header.version = RWKV_FILE_VERSION_1) then
      .error (.oldQuantizer header.data_type)
    else .ok header
  else .ok header

/-! ### Tensor headers -/

/-- Structure `tensor_header` from `rwkv.cpp`. -/
structure TensorHeader where
  dim_count : ℕ
  key_length : ℕ
  data_type : ℕ
  width : ℕ
  height : ℕ
deriving DecidableEq, Repr

/-- The distinct failure exits of `fread_tensor_header`. -/
inductive ThErr where
  | readFail
  | badShape (dim_count : ℕ)
  | typeOutOfRange (data_type : ℕ)
  | removedType (data_type : ℕ)
deriving DecidableEq, Repr

/-- The error flags each `fread_tensor_header` exit ORs into the
last-error word. -/
def ThErr.flags : ThErr → ErrFlags
  | .readFail => {.fileRead}
  | .badShape _ => {.shape}
  | .typeOutOfRange _ => {.dataType}
  | .removedType _ => {.dataType}

/-- Function `fread_tensor_header` from `rwkv.cpp`, over the file modelled as a
stream of 32-bit words.  It reads the first four fields in one `fread`
(`sizeof(tensor_header) - sizeof(uint32_t)` bytes), sets `height = 1`,
then checks `dim_count ∈ {1,2}` (SHAPE), `data_type < TYPE_COUNT`
(DATA_TYPE), `type_to_ggml[data_type] ≠ UNKNOWN` (DATA_TYPE), and only
when `dim_count == 2` reads one more word into `height`.  Returns the
parsed header and the unread remainder of the stream. -/
def fread_tensor_header (ws : List ℕ) :
    Except ThErr (TensorHeader × List ℕ) :=
  match ws with
  | d :: kl :: dt :: w :: rest =>
    let header : TensorHeader :=
      { dim_count := d, key_length := kl, data_type := dt, width := w, height := 1 }
    if ¬ (d = 1 ∨ d = 2) then .error (.badShape d)
    else if ¬ (dt < TYPE_COUNT) then .error (.typeOutOfRange dt)
    else if ¬ (type_to_ggml dt ≠ GgmlType.UNKNOWN) then .error (.removedType dt)
    else if d = 2 then
      match rest with
      | h :: rest2 => .ok ({ header with height := h }, rest2)
      | [] => .error .readFail
    else .ok (header, rest)
  | _ => .error .readFail

/-! ### Per-thread / per-context error cells
(`rwkv_get_last_error`, lines 825-830) -/

/-- The mutable error cells `rwkv_get_last_error` addresses: the
thread-local `global_last_error` and a context's `last_error`; the C
function picks the cell from whether its `ctx` argument is null. -/
structure ErrWorld where
  global_last_error : ErrFlags
  ctx_last_error : ErrFlags
deriving DecidableEq

/-- Function `rwkv_get_last_error` from `rwkv.cpp`: picks the context cell when a
context is passed (`use_ctx`), else the thread-global cell; returns the
stored value and stores `RWKV_ERROR_NONE` (the empty flag set) back. -/
def rwkv_get_last_error (use_ctx : Bool) (w : ErrWorld) : ErrFlags × ErrWorld :=
  if use_ctx then (w.ctx_last_error, { w with ctx_last_error := ∅ })
  else (w.global_last_error, { w with global_last_error := ∅ })

/-! ### Evaluator (`rwkv_eval`, lines 930-961) -/

/-- The input-state tensor contents: `n_layer * 5 * n_embed` floats,
modelled as exact rationals. -/
abbrev StateVec (nLayer nEmbed : ℕ) := Fin (nLayer * 5 * nEmbed) → ℚ

/-- The logits tensor contents: `n_vocab` floats. -/
abbrev LogitsVec (nVocab : ℕ) := Fin nVocab → ℚ

/-- The float literal `-1e30f` the evaluator writes into fresh `att_pp`
slices. -/
def NEG_1E30 : ℚ := -(10 ^ 30)

/-- One iteration of the fresh-state loop in `rwkv_eval`: overwrite the
slice `[n_embed * (layer*5 + 4), n_embed * (layer*5 + 4) + n_embed)` of
the input-state vector with `-1e30`. -/
def set_att_pp_slice (nLayer nEmbed : ℕ) (layer : ℕ)
    (s : StateVec nLayer nEmbed) : StateVec nLayer nEmbed :=
  fun i =>
    if nEmbed * (layer * 5 + 4) ≤ i.val ∧ i.val < nEmbed * (layer * 5 + 4) + nEmbed
    then NEG_1E30 else s i

/-- The contents `rwkv_eval` gives the input-state tensor when
`state_in == NULL`: `ggml_set_f32(input_state, 0.0F)` followed by the
per-layer loop writing `-1e30f` over each layer's fifth part. -/
def fresh_input_state (nLayer nEmbed : ℕ) : StateVec nLayer nEmbed :=
  (List.range nLayer).foldl
    (fun s layer => set_att_pp_slice nLayer nEmbed layer s) (fun _ => 0)

/-- The mutable pieces of a loaded context that `rwkv_eval` touches: its
`last_error` word and the contents of the two graph input tensors. -/
structure EvalState (nLayer nEmbed : ℕ) where
  last_error : ErrFlags
  token_index : ℕ
  input_state : StateVec nLayer nEmbed

/-- What `rwkv_eval` leaves behind: its boolean return value, the
context's mutable state, and the caller's two output buffers (`none`
models a null pointer; `some` holds the buffer contents on return). -/
structure EvalResult (nLayer nEmbed nVocab : ℕ) where
  ok : Bool
  st : EvalState nLayer nEmbed
  state_out : Option (StateVec nLayer nEmbed)
  logits_out : Option (LogitsVec nVocab)

/-- Function `rwkv_eval` from `rwkv.cpp`.  The prebuilt graph execution
(`ggml_graph_compute` plus reading the `n_layer*5` output-state parts and
the logits tensor) is the backend's job and is abstracted as `compute`,
a function of the token-index and input-state tensor contents.  In code
order: clear `last_error`; reject null `state_out` (ARGS); reject
`token ≥ n_vocab` (ARGS); write the token into the token tensor; fill the
input-state tensor from `state_in` (or the fresh-state contents when
null); run the graph; copy the output parts into `state_out` and, when
non-null, the logits into `logits_out`; return true. -/
def rwkv_eval {nLayer nEmbed nVocab : ℕ}
    (compute : ℕ → StateVec nLayer nEmbed → StateVec nLayer nEmbed × LogitsVec nVocab)
    (st : EvalState nLayer nEmbed) (token : ℕ)
    (state_in : Option (StateVec nLayer nEmbed))
    (state_out : Option (StateVec nLayer nEmbed))
    (logits_out : Option (LogitsVec nVocab)) :
    EvalResult nLayer nEmbed nVocab :=
  let st1 : EvalState nLayer nEmbed := { st with last_error := (∅ : ErrFlags) }
  if state_out = none then
    { ok := false, st := { st1 with last_error := st1.last_error ∪ {ErrKind.args} },
      state_out := state_out, logits_out := logits_out }
  else if ¬ (token < nVocab) then
    { ok := false, st := { st1 with last_error := st1.last_error ∪ {ErrKind.args} },
      state_out := state_out, logits_out := logits_out }
  else
    let st2 : EvalState nLayer nEmbed := { st1 with token_index := token }
    let st3 : EvalState nLayer nEmbed :=
      { st2 with input_state :=
          match state_in with
          | none => fresh_input_state nLayer nEmbed
          | some s => s }
    let out := compute st3.token_index st3.input_state
    { ok := true, st := st3, state_out := some out.1,
      logits_out := match logits_out with | none => none | some _ => some out.2 }

/-! ### Header-read steps of the two entry points
(`rwkv_init_from_file` line 846, `rwkv_quantize_model_file` lines
1002-1004) -/

/-- Header-read step of `rwkv_init_from_file` (line 846): calls
`fread_file_header(file, header)` — `verify_data_type` defaulting to
`true` — wrapped in `RWKV_ASSERT(RWKV_ERROR_FILE, ...)`, which ORs the
FILE flag on top of whatever flags the reader set. -/
def init_read_header (h : FileHeader) : Except ErrFlags FileHeader :=
  match fread_file_header h true with
  | .error e => .error (e.flags ∪ {ErrKind.file})
  | .ok h1 => .ok h1

/-- Header-read step of `rwkv_quantize_model_file` (lines 1002-1004):
calls `fread_file_header(input, file_header)` — `verify_data_type`
defaulting to `true` — wrapped in `RWKV_ASSERT(RWKV_ERROR_FILE, ...)`,
then rejects any source data type other than f32 or f16 (also with the
FILE flag). -/
def quantize_read_header (h : FileHeader) : Except ErrFlags FileHeader :=
  match fread_file_header h true with
  | .error e => .error (e.flags ∪ {ErrKind.file})
  | .ok h1 =>
    if ¬ (h1.data_type = TYPE_F32 ∨ h1.data_type = TYPE_F16) then
      .error {ErrKind.file}
    else .ok h1

/-- The quantizer's header-read step as claim C3 describes it: the same
two steps but with the header read's type verification suppressed
(`verify_data_type = false`), so that a removed legacy type passes the
header read and only the f32/f16 check can reject it.  Defined from the
spec's words, for comparison with `quantize_read_header`. -/
def quantize_read_header_claim (h : FileHeader) : Except ErrFlags FileHeader :=
  match fread_file_header h false with
  | .error e => .error (e.flags ∪ {ErrKind.file})
  | .ok h1 =>
    if ¬ (h1.data_type = TYPE_F32 ∨ h1.data_type = TYPE_F16) then
      .error {ErrKind.file}
    else .ok h1

/-! ### Per-record tensor reads of the three scanning loops -/

/-- One record of the loader's sizing pass (first file scan, lines
853-863): `fread_tensor_header` wrapped in
`RWKV_ASSERT(RWKV_ERROR_MODEL_PARAMS, ...)`; the following name read,
payload seek and size tally don't validate anything further and are
abstracted to the returned header and stream remainder. -/
def init_sizing_read_step (ws : List ℕ) :
    Except ErrFlags (TensorHeader × List ℕ) :=
  match fread_tensor_header ws with
  | .error e => .error (e.flags ∪ {ErrKind.modelParams})
  | .ok r => .ok r

/-- Function `fread_ggml_tensor` from `rwkv.cpp` (lines 462-466 and
445-460): reads a tensor header (flags propagated unchanged by
`RWKV_ENSURE`), then `fread_ggml_tensor_data` re-checks that the backend
type is not the unknown sentinel (UNSUPPORTED flag); tensor allocation
and payload read are backend I/O, abstracted away. -/
def fread_ggml_tensor (ws : List ℕ) :
    Except ErrFlags (TensorHeader × List ℕ) :=
  match fread_tensor_header ws with
  | .error e => .error e.flags
  | .ok (h, rest) =>
    if ¬ (type_to_ggml h.data_type ≠ GgmlType.UNKNOWN) then
      .error {ErrKind.unsupported}
    else .ok (h, rest)

/-- One record of the loader's binding pass (second file scan, lines
883-888): `fread_ggml_tensor` wrapped in
`RWKV_ASSERT(RWKV_ERROR_MODEL_PARAMS, ...)`. -/
def init_bind_read_step (ws : List ℕ) :
    Except ErrFlags (TensorHeader × List ℕ) :=
  match fread_ggml_tensor ws with
  | .error e => .error (e ∪ {ErrKind.modelParams})
  | .ok r => .ok r

/-- The tensor-header read of one record of the quantizer's streaming
rewrite loop (line 1028): `fread_tensor_header` wrapped in
`RWKV_ASSERT(RWKV_ERROR_MODEL_PARAMS, ...)`. -/
def quantize_read_record_step (ws : List ℕ) :
    Except ErrFlags (TensorHeader × List ℕ) :=
  match fread_tensor_header ws with
  | .error e => .error (e.flags ∪ {ErrKind.modelParams})
  | .ok r => .ok r

/-! ### The quantizer's per-record transform
(`rwkv_quantize_model_file`, lines 1026-1084) -/

/-- A tensor record held in memory by the quantizer loop: its parsed
header, its name, and its payload (payload bytes abstracted to a list of
scalars). -/
structure TRec where
  header : TensorHeader
  name : String
  payload : List ℚ
deriving Repr

/-- The quantizer's per-record transform, from the body of the rewrite
loop: when the source type is f32 or f16, the record is 2-D and the name
is neither `emb.weight` nor `head.weight`, the payload is converted to
f32 when the source is f16 (`ggml_fp16_to_fp32_row`, abstracted as
`fp16_to_fp32_row`) and quantized to the target type
(`ggml_quantize_chunk`, abstracted as `quantize_chunk`), and the header's
data type becomes the target type; otherwise the record is written back
unchanged. -/
def quantize_record (target_type : ℕ)
    (fp16_to_fp32_row : List ℚ → List ℚ)
    (quantize_chunk : ℕ → List ℚ → List ℚ)
    (r : TRec) : TRec :=
  let orig_type := r.header.data_type
  if (orig_type = TYPE_F32 ∨ orig_type = TYPE_F16) ∧ r.header.dim_count = 2 ∧
      r.name ≠ "emb.weight" ∧ r.name ≠ "head.weight" then
    let floats := if orig_type = TYPE_F16 then fp16_to_fp32_row r.payload else r.payload
    { header := { r.header with data_type := target_type },
      name := r.name,
      payload := quantize_chunk target_type floats }
  else r

/-! ### Time-mix (attention) substep (`rwkv_single_att`, lines 597-664) -/

/-- A length-`n` float vector (one tensor row). -/
abbrev Vec (n : ℕ) := Fin n → ℚ

/-- An `n × n` weight matrix. -/
abbrev Mat (n : ℕ) := Fin n → Fin n → ℚ

/-- Elementwise add (`ggml_add` / `ggml_add_inplace`). -/
def vadd {n : ℕ} (a b : Vec n) : Vec n := fun i => a i + b i

/-- Elementwise multiply (`ggml_mul`). -/
def vmul {n : ℕ} (a b : Vec n) : Vec n := fun i => a i * b i

/-- Elementwise subtract (`ggml_sub`). -/
def vsub {n : ℕ} (a b : Vec n) : Vec n := fun i => a i - b i

/-- Elementwise divide (`ggml_div`). -/
def vdiv {n : ℕ} (a b : Vec n) : Vec n := fun i => a i / b i

/-- Operator `rwkv_1_minus_x` from `rwkv.cpp`: elementwise `1 - x`. -/
def rwkv_1_minus_x {n : ℕ} (a : Vec n) : Vec n := fun i => 1 - a i

/-- Operator `rwkv_max` from `rwkv.cpp`: elementwise `fmaxf`. -/
def rwkv_max {n : ℕ} (a b : Vec n) : Vec n := fun i => max (a i) (b i)

/-- Operator `rwkv_exp` from `rwkv.cpp`: elementwise `expf`, the float
exponential supplied to the backend as a user callback; modelled as an
abstract scalar function `ex`. -/
def rwkv_exp {n : ℕ} (ex : ℚ → ℚ) (a : Vec n) : Vec n := fun i => ex (a i)

/-- Operator `rwkv_sigmoid` from `rwkv.cpp`: elementwise
`1 / (1 + expf(-x))`, with the same abstract exponential `ex`. -/
def rwkv_sigmoid {n : ℕ} (ex : ℚ → ℚ) (a : Vec n) : Vec n :=
  fun i => 1 / (1 + ex (-(a i)))

/-- Matrix-vector product (`ggml_mul_mat` applied to a weight matrix and
a vector): `(W·x)_i = Σ_j W_{ij} x_j`. -/
def matVec {n : ℕ} (W : Mat n) (x : Vec n) : Vec n :=
  fun i => ∑ j, W i j * x j

/-- Function `rwkv_layer_norm` from `rwkv.cpp`:
`ggml_norm` (the backend's mean/variance normalization, abstracted as
`nrm`) followed by the affine `· * weight + bias`. -/
def rwkv_layer_norm {n : ℕ} (nrm : Vec n → Vec n)
    (x weight bias : Vec n) : Vec n :=
  vadd (vmul (nrm x) weight) bias

/-- The per-layer parameters and input-state views `rwkv_single_att`
reads (fields of `struct rwkv_layer`). -/
structure AttLayer (n : ℕ) where
  ln1_weight : Vec n
  ln1_bias : Vec n
  att_time_mix_k : Vec n
  att_time_mix_v : Vec n
  att_time_mix_r : Vec n
  att_time_first : Vec n
  att_time_decay : Vec n
  att_key : Mat n
  att_value : Mat n
  att_receptance : Mat n
  att_output : Mat n
  att_xx : Vec n
  att_aa : Vec n
  att_bb : Vec n
  att_pp : Vec n

/-- What the time-mix substep produces: the new hidden vector `x` and
the four next-step state parts the function stores back into the layer
(`att_xx, att_aa, att_bb, att_pp`). -/
structure AttResult (n : ℕ) where
  x : Vec n
  att_xx : Vec n
  att_aa : Vec n
  att_bb : Vec n
  att_pp : Vec n

/-- Function `rwkv_single_att` from `rwkv.cpp`, translated line by line
(lines 597-664).  `ex` is the float exponential callback, `nrm` the
backend's layernorm normalization. -/
def rwkv_single_att {n : ℕ} (ex : ℚ → ℚ) (nrm : Vec n → Vec n)
    (x : Vec n) (layer : AttLayer n) : AttResult n :=
  let x0 := rwkv_layer_norm nrm x layer.ln1_weight layer.ln1_bias
  let xk := vadd (vmul x0 layer.att_time_mix_k)
                 (vmul layer.att_xx (rwkv_1_minus_x layer.att_time_mix_k))
  let xv := vadd (vmul x0 layer.att_time_mix_v)
                 (vmul layer.att_xx (rwkv_1_minus_x layer.att_time_mix_v))
  let xr := vadd (vmul x0 layer.att_time_mix_r)
                 (vmul layer.att_xx (rwkv_1_minus_x layer.att_time_mix_r))
  let r := rwkv_sigmoid ex (matVec layer.att_receptance xr)
  let k := matVec layer.att_key xk
  let v := matVec layer.att_value xv
  let ww := vadd layer.att_time_first k
  let qq := rwkv_max layer.att_pp ww
  let e1 := rwkv_exp ex (vsub layer.att_pp qq)
  let e2 := rwkv_exp ex (vsub ww qq)
  let a := vadd (vmul e1 layer.att_aa) (vmul e2 v)
  let b := vadd (vmul e1 layer.att_bb) e2
  let ww2 := vadd layer.att_pp layer.att_time_decay
  let qq2 := rwkv_max ww2 k
  let e1n := rwkv_exp ex (vsub ww2 qq2)
  let e2n := rwkv_exp ex (vsub k qq2)
  let new_xx := x0
  let new_aa := vadd (vmul e1n layer.att_aa) (vmul e2n v)
  let new_bb := vadd (vmul e1n layer.att_bb) e2n
  let new_pp := qq2
  let wkv := vdiv a b
  { x := vadd x (matVec layer.att_output (vmul r wkv)),
    att_xx := new_xx, att_aa := new_aa, att_bb := new_bb, att_pp := new_pp }

/-- The time-mix substep as claim C1 and the spec's pseudo-algebra state
it: with `ww = time_first + k`, `qq = max(att_pp, ww)`,
`e1 = exp(att_pp − qq)`, `e2 = exp(ww − qq)`, `a = e1⊙att_aa + e2⊙v`,
`b = e1⊙att_bb + e2`, the output is `x + Wo·(r ⊙ (a/b))`; and with
`ww' = att_pp + time_decay`, `qq' = max(ww', k)`, `e1' = exp(ww' − qq')`,
`e2' = exp(k − qq')` the next state is `att_xx' = x0`,
`att_aa' = e1'⊙att_aa + e2'⊙v`, `att_bb' = e1'⊙att_bb + e2'`,
`att_pp' = qq'`.  Defined from the spec's words, for comparison with the
code translation `rwkv_single_att`. -/
def spec_time_mix {n : ℕ} (ex : ℚ → ℚ) (nrm : Vec n → Vec n)
    (x : Vec n) (layer : AttLayer n) : AttResult n :=
  let x0 := rwkv_layer_norm nrm x layer.ln1_weight layer.ln1_bias
  let xk := vadd (vmul x0 layer.att_time_mix_k)
                 (vmul layer.att_xx (rwkv_1_minus_x layer.att_time_mix_k))
  let xv := vadd (vmul x0 layer.att_time_mix_v)
                 (vmul layer.att_xx (rwkv_1_minus_x layer.att_time_mix_v))
  let xr := vadd (vmul x0 layer.att_time_mix_r)
                 (vmul layer.att_xx (rwkv_1_minus_x layer.att_time_mix_r))
  let r := rwkv_sigmoid ex (matVec layer.att_receptance xr)
  let k := matVec layer.att_key xk
  let v := matVec layer.att_value xv
  let ww := vadd layer.att_time_first k
  let qq := rwkv_max layer.att_pp ww
  let e1 := rwkv_exp ex (vsub layer.att_pp qq)
  let e2 := rwkv_exp ex (vsub ww qq)
  let a := vadd (vmul e1 layer.att_aa) (vmul e2 v)
  let b := vadd (vmul e1 layer.att_bb) e2
  let ww' := vadd layer.att_pp layer.att_time_decay
  let qq' := rwkv_max ww' k
  let e1' := rwkv_exp ex (vsub ww' qq')
  let e2' := rwkv_exp ex (vsub k qq')
  { x := vadd x (matVec layer.att_output (vmul r (vdiv a b))),
    att_xx := x0,
    att_aa := vadd (vmul e1' layer.att_aa) (vmul e2' v),
    att_bb := vadd (vmul e1' layer.att_bb) e2',
    att_pp := qq' }

/-- The fresh state as claim C4 words it: all zeros except each layer's
`att_pp` slice — the part with index 4 of 5 — set to `-1e30`.  Defined
from the claim's words, for comparison with `fresh_input_state`. -/
def spec_fresh_state (nLayer nEmbed : ℕ) : StateVec nLayer nEmbed :=
  fun i => if i.val / nEmbed % 5 = 4 then NEG_1E30 else 0

/-! ### Helper lemmas -/

lemma foldl_set_att_pp {nLayer nEmbed : ℕ} (t : List ℕ)
    (s : StateVec nLayer nEmbed) (i : Fin (nLayer * 5 * nEmbed)) :
    (t.foldl (fun s layer => set_att_pp_slice nLayer nEmbed layer s) s) i
      = if ∃ L ∈ t, nEmbed * (L * 5 + 4) ≤ i.val ∧
            i.val < nEmbed * (L * 5 + 4) + nEmbed
        then NEG_1E30 else s i := by
  induction t generalizing s with
  | nil => simp
  | cons a t ih =>
    simp only [List.foldl_cons]
    rw [ih]
    by_cases h1 : ∃ L ∈ t, nEmbed * (L * 5 + 4) ≤ i.val ∧
        i.val < nEmbed * (L * 5 + 4) + nEmbed
    · rw [if_pos h1, if_pos]
      exact h1.elim fun L hL => ⟨L, List.mem_cons_of_mem a hL.1, hL.2⟩
    · rw [if_neg h1]
      unfold set_att_pp_slice
      by_cases h2 : nEmbed * (a * 5 + 4) ≤ i.val ∧
          i.val < nEmbed * (a * 5 + 4) + nEmbed
      · rw [if_pos h2, if_pos ⟨a, List.mem_cons_self a t, h2⟩]
      · rw [if_neg h2, if_neg]
        rintro ⟨L, hmem, hP⟩
        rcases List.mem_cons.mp hmem with rfl | hm
        · exact h2 hP
        · exact h1 ⟨L, hm, hP⟩

lemma att_pp_index_iff {nLayer nEmbed k : ℕ} (hk : k < nLayer * 5 * nEmbed) :
    (∃ L, L < nLayer ∧ nEmbed * (L * 5 + 4) ≤ k ∧
        k < nEmbed * (L * 5 + 4) + nEmbed)
      ↔ k / nEmbed % 5 = 4 := by
  have hne : 0 < nEmbed := by
    rcases Nat.eq_zero_or_pos nEmbed with h | h
    · subst h; simp at hk
    · exact h
  constructor
  · rintro ⟨L, _, h1, h2⟩
    have hdiv : k / nEmbed = L * 5 + 4 := by
      apply Nat.div_eq_of_lt_le
      · calc (L * 5 + 4) * nEmbed = nEmbed * (L * 5 + 4) := by ring
          _ ≤ k := h1
      · calc k < nEmbed * (L * 5 + 4) + nEmbed := h2
          _ = (L * 5 + 4 + 1) * nEmbed := by ring
    rw [hdiv]; omega
  · intro h
    have hqr : nEmbed * (k / nEmbed) + k % nEmbed = k := Nat.div_add_mod k nEmbed
    have hr : k % nEmbed < nEmbed := Nat.mod_lt k hne
    have hq5 : k / nEmbed = 5 * (k / nEmbed / 5) + 4 := by omega
    refine ⟨k / nEmbed / 5, ?_, ?_, ?_⟩
    · have h1 : nEmbed * (k / nEmbed) ≤ k := by omega
      have h2 : nEmbed * (k / nEmbed) < nEmbed * (5 * nLayer) := by
        calc nEmbed * (k / nEmbed) ≤ k := h1
          _ < nLayer * 5 * nEmbed := hk
          _ = nEmbed * (5 * nLayer) := by ring
      have h3 : k / nEmbed < 5 * nLayer := Nat.lt_of_mul_lt_mul_left h2
      omega
    · have : nEmbed * (k / nEmbed / 5 * 5 + 4) = nEmbed * (k / nEmbed) := by
        congr 1; omega
      omega
    · have : nEmbed * (k / nEmbed / 5 * 5 + 4) = nEmbed * (k / nEmbed) := by
        congr 1; omega
      omega

lemma fresh_input_state_eq_spec (nLayer nEmbed : ℕ) :
    fresh_input_state nLayer nEmbed = spec_fresh_state nLayer nEmbed := by
  funext i
  unfold fresh_input_state spec_fresh_state
  rw [foldl_set_att_pp]
  have hiff : (∃ L ∈ List.range nLayer, nEmbed * (L * 5 + 4) ≤ i.val ∧
      i.val < nEmbed * (L * 5 + 4) + nEmbed) ↔ i.val / nEmbed % 5 = 4 := by
    rw [← att_pp_index_iff i.isLt]
    constructor
    · rintro ⟨L, hm, hP⟩; exact ⟨L, List.mem_range.mp hm, hP⟩
    · rintro ⟨L, hL, hP⟩; exact ⟨L, List.mem_range.mpr hL, hP⟩
  exact if_congr hiff rfl rfl

/-! ### Claim theorems -/

/-- C1: for every layer, the time-mix (attention) substep of the
single-step graph computes its output as `x + Wo·(r ⊙ (a/b))` where, with
`ww = time_first + k` and `qq = max(att_pp, ww)`, `e1 = exp(att_pp − qq)`,
`e2 = exp(ww − qq)`, `a = e1⊙att_aa + e2⊙v` and `b = e1⊙att_bb + e2`; and
it produces the next-step state parts `att_xx' = x0`,
`att_aa' = e1'⊙att_aa + e2'⊙v`, `att_bb' = e1'⊙att_bb + e2'`,
`att_pp' = qq'`, where `ww' = att_pp + time_decay`, `qq' = max(ww', k)`,
`e1' = exp(ww' − qq')`, `e2' = exp(k − qq')`: the translation of
`rwkv_single_att` coincides with the substep built from the spec's
formulas, for every exponential callback, normalization, input and layer. -/
theorem single_att_matches_spec {n : ℕ} (ex : ℚ → ℚ) (nrm : Vec n → Vec n)
    (x : Vec n) (layer : AttLayer n) :
    rwkv_single_att ex nrm x layer = spec_time_mix ex nrm x layer := rfl

/-- C4: calling `rwkv_eval` with a null input state produces exactly the
same result (return value, context mutation, output-state and logits
buffers) as calling it with an explicit input state that is all zeros
except each layer's `att_pp` slice (part index 4 of 5) set to `-1e30`;
the null-state branch zero-fills the input-state tensor and then writes
`-1e30` over each layer's `att_pp` slice. -/
theorem eval_null_state_equiv {nLayer nEmbed nVocab : ℕ}
    (compute : ℕ → StateVec nLayer nEmbed → StateVec nLayer nEmbed × LogitsVec nVocab)
    (st : EvalState nLayer nEmbed) (token : ℕ)
    (state_out : Option (StateVec nLayer nEmbed))
    (logits_out : Option (LogitsVec nVocab)) :
    rwkv_eval compute st token none state_out logits_out
      = rwkv_eval compute st token (some (spec_fresh_state nLayer nEmbed))
          state_out logits_out := by
  unfold rwkv_eval
  rw [fresh_input_state_eq_spec]

/-- C7: `rwkv_get_last_error` — on a context's cell and on the
thread-global cell alike — returns the currently stored error value and
resets the stored value to `NONE`, so a second call with no intervening
operation returns `NONE`. -/
theorem get_last_error_reads_and_clears (use_ctx : Bool) (w : ErrWorld) :
    (rwkv_get_last_error use_ctx w).1
        = (if use_ctx then w.ctx_last_error else w.global_last_error)
    ∧ (rwkv_get_last_error use_ctx (rwkv_get_last_error use_ctx w).2).1 = ∅ := by
  cases use_ctx <;> simp [rwkv_get_last_error]

/-- Counterexample to C2: the header with correct magic, version 100 (in
the supported range) and the quantized data type Q4_0 satisfies the
claim's validity rule — is_quantized implies version ≠ 1, under either
reading of "1" (the raw value 1 or the constant `RWKV_FILE_VERSION_1`) —
yet `fread_file_header` with verification enabled rejects it, with the
DATA_TYPE old-quantizer error. -/
theorem quantized_version_rule_counterexample :
    ggml_is_quantized (type_to_ggml TYPE_Q4_0) = true
    ∧ (100 : ℕ) ≠ 1
    ∧ (100 : ℕ) ≠ RWKV_FILE_VERSION_1
    ∧ is_file_version_in_range 100 = true
    ∧ fread_file_header
        { magic := RWKV_FILE_MAGIC, version := 100, n_vocab := 1,
          n_embed := 1, n_layer := 1, data_type := TYPE_Q4_0 } true
      = .error (.oldQuantizer TYPE_Q4_0) := by decide

/-- C2 (amended): for every model-file header whose data-type code is in
range and denotes a quantized backend type, reading the header with type
verification enabled succeeds exactly when the version equals
`RWKV_FILE_VERSION_1` (the file version that introduced the current
quantized formats); a quantized header with any other version is rejected
with a DATA_TYPE error carrying the old-quantizer message, which is
distinct from the removed-format message. -/
theorem quantized_header_version_rule (h : FileHeader)
    (hm : h.magic = RWKV_FILE_MAGIC)
    (hv : is_file_version_in_range h.version = true)
    (ht : h.data_type < TYPE_COUNT)
    (hq : ggml_is_quantized (type_to_ggml h.data_type) = true) :
    (fread_file_header h true = .ok h ↔ h.version = RWKV_FILE_VERSION_1)
    ∧ (h.version ≠ RWKV_FILE_VERSION_1 →
        fread_file_header h true = .error (.oldQuantizer h.data_type)
        ∧ (FhErr.oldQuantizer h.data_type).flags = {ErrKind.dataType}
        ∧ ∀ t, FhErr.oldQuantizer h.data_type ≠ FhErr.formatRemoved t) := by
  have hg : ¬ (type_to_ggml h.data_type = GgmlType.UNKNOWN) := by
    intro hcon
    rw [hcon] at hq
    simp [ggml_is_quantized] at hq
  by_cases hver : h.version = RWKV_FILE_VERSION_1
  · refine ⟨?_, fun hcon => absurd hver hcon⟩
    have hv1 : is_file_version_in_range RWKV_FILE_VERSION_1 = true := by decide
    simp [fread_file_header, hm, hv, hv1, ht, hg, hver]
  · refine ⟨?_, fun _ => ⟨?_, rfl, fun t => by simp⟩⟩
    · simp [fread_file_header, hm, hv, ht, hg, hq, hver]
    · simp [fread_file_header, hm, hv, ht, hg, hq, hver]

/-- A concrete quantized header at the first-quantized file version, for
exercising the amended C2 rule. -/
def exampleQuantizedHeader : FileHeader :=
  { magic := RWKV_FILE_MAGIC, version := RWKV_FILE_VERSION_1, n_vocab := 1,
    n_embed := 1, n_layer := 1, data_type := TYPE_Q4_0 }

/-- Witness for the amended C2 rule at a concrete quantized header. -/
theorem quantized_header_version_rule_witness :
    (fread_file_header exampleQuantizedHeader true = .ok exampleQuantizedHeader
      ↔ exampleQuantizedHeader.version = RWKV_FILE_VERSION_1)
    ∧ (exampleQuantizedHeader.version ≠ RWKV_FILE_VERSION_1 →
        fread_file_header exampleQuantizedHeader true
          = .error (.oldQuantizer exampleQuantizedHeader.data_type)
        ∧ (FhErr.oldQuantizer exampleQuantizedHeader.data_type).flags
            = {ErrKind.dataType}
        ∧ ∀ t, FhErr.oldQuantizer exampleQuantizedHeader.data_type
            ≠ FhErr.formatRemoved t) :=
  quantized_header_version_rule exampleQuantizedHeader rfl (by decide)
    (by decide) (by decide)

/-- Counterexample to C3: for the header with correct magic and version
but the removed legacy data type Q4_1_O, the quantizer's header-read step
— which calls `fread_file_header` with `verify_data_type` defaulting to
true — fails already at the header read with a DATA_TYPE
(format-removed) error; it does not pass the header read and reach the
f32/f16 source check, as it would with validation suppressed. -/
theorem quantizer_relaxed_validation_counterexample :
    fread_file_header
        { magic := RWKV_FILE_MAGIC, version := 101, n_vocab := 1,
          n_embed := 1, n_layer := 1, data_type := TYPE_Q4_1_O } true
      = .error (.formatRemoved TYPE_Q4_1_O)
    ∧ quantize_read_header
        { magic := RWKV_FILE_MAGIC, version := 101, n_vocab := 1,
          n_embed := 1, n_layer := 1, data_type := TYPE_Q4_1_O }
      = .error {ErrKind.dataType, ErrKind.file}
    ∧ quantize_read_header_claim
        { magic := RWKV_FILE_MAGIC, version := 101, n_vocab := 1,
          n_embed := 1, n_layer := 1, data_type := TYPE_Q4_1_O }
      = .error {ErrKind.file}
    ∧ quantize_read_header
        { magic := RWKV_FILE_MAGIC, version := 101, n_vocab := 1,
          n_embed := 1, n_layer := 1, data_type := TYPE_Q4_1_O }
      ≠ quantize_read_header_claim
        { magic := RWKV_FILE_MAGIC, version := 101, n_vocab := 1,
          n_embed := 1, n_layer := 1, data_type := TYPE_Q4_1_O } := by decide

/-- C3 (amended): the quantizer's header read applies the same full type
validation as load — `fread_file_header`'s `verify_data_type` parameter
defaults to true and the quantizer's call site passes nothing — so on any
header-read failure the quantizer propagates that failure's flags (plus
FILE), and a header with correct magic and version carrying a removed
legacy type is rejected with DATA_TYPE at the header read by the
quantizer and the loader alike, never reaching the quantizer's f32/f16
source check. -/
theorem quantizer_header_validation_enabled (h : FileHeader) :
    (∀ e, fread_file_header h true = .error e →
        quantize_read_header h = .error (e.flags ∪ {ErrKind.file})
        ∧ init_read_header h = .error (e.flags ∪ {ErrKind.file}))
    ∧ (h.magic = RWKV_FILE_MAGIC → is_file_version_in_range h.version = true →
        h.data_type < TYPE_COUNT → type_to_ggml h.data_type = GgmlType.UNKNOWN →
        quantize_read_header h = .error {ErrKind.dataType, ErrKind.file}
        ∧ init_read_header h = .error {ErrKind.dataType, ErrKind.file}) := by
  constructor
  · intro e he
    unfold quantize_read_header init_read_header
    rw [he]
    exact ⟨rfl, rfl⟩
  · intro hm hv ht hg
    have he : fread_file_header h true = .error (.formatRemoved h.data_type) := by
      simp [fread_file_header, hm, hv, ht, hg]
    unfold quantize_read_header init_read_header
    rw [he]
    refine ⟨?_, ?_⟩ <;> simp only [FhErr.flags] <;> decide

/-- A concrete header carrying a removed legacy type (Q4_1_O), for
exercising the amended C3 rule. -/
def exampleRemovedTypeHeader : FileHeader :=
  { magic := RWKV_FILE_MAGIC, version := 101, n_vocab := 1, n_embed := 1,
    n_layer := 1, data_type := TYPE_Q4_1_O }

/-- Witness for the amended C3 rule at a concrete removed-type header. -/
theorem quantizer_header_validation_enabled_witness :
    (quantize_read_header exampleRemovedTypeHeader
        = .error ((FhErr.formatRemoved TYPE_Q4_1_O).flags ∪ {ErrKind.file})
      ∧ init_read_header exampleRemovedTypeHeader
        = .error ((FhErr.formatRemoved TYPE_Q4_1_O).flags ∪ {ErrKind.file}))
    ∧ (quantize_read_header exampleRemovedTypeHeader
        = .error {ErrKind.dataType, ErrKind.file}
      ∧ init_read_header exampleRemovedTypeHeader
        = .error {ErrKind.dataType, ErrKind.file}) :=
  ⟨(quantizer_header_validation_enabled exampleRemovedTypeHeader).1
      (.formatRemoved TYPE_Q4_1_O) (by decide),
   (quantizer_header_validation_enabled exampleRemovedTypeHeader).2 rfl
      (by decide) (by decide) (by decide)⟩

/-- C5: `rwkv_eval` rejects a null `state_out` with failure and the ARGS
flag set; rejects `token ≥ n_vocab` with failure and the ARGS flag set;
and with a non-null `state_out`, any token strictly below `n_vocab`
passes both argument checks and the call succeeds. -/
theorem eval_argument_checks {nLayer nEmbed nVocab : ℕ}
    (compute : ℕ → StateVec nLayer nEmbed → StateVec nLayer nEmbed × LogitsVec nVocab)
    (st : EvalState nLayer nEmbed) (token : ℕ)
    (state_in : Option (StateVec nLayer nEmbed))
    (logits_out : Option (LogitsVec nVocab)) :
    ((rwkv_eval compute st token state_in none logits_out).ok = false
      ∧ (rwkv_eval compute st token state_in none logits_out).st.last_error
          = {ErrKind.args})
    ∧ (∀ so : StateVec nLayer nEmbed, nVocab ≤ token →
        (rwkv_eval compute st token state_in (some so) logits_out).ok = false
        ∧ (rwkv_eval compute st token state_in (some so) logits_out).st.last_error
            = {ErrKind.args})
    ∧ (∀ so : StateVec nLayer nEmbed, token < nVocab →
        (rwkv_eval compute st token state_in (some so) logits_out).ok = true) := by
  refine ⟨⟨?_, ?_⟩, fun so htok => ⟨?_, ?_⟩, fun so htok => ?_⟩
  · simp [rwkv_eval]
  · simp [rwkv_eval]
  · simp [rwkv_eval, Nat.not_lt, htok]
  · simp [rwkv_eval, Nat.not_lt, htok]
  · simp [rwkv_eval, htok]

/-- C9: when `rwkv_eval` fails its argument validation (null `state_out`,
or token out of range) it returns false having written nothing to the
caller's state or logits buffers and without modifying the input-state or
token-index tensors; the only context mutation on this path is clearing
`last_error` at entry and then setting the ARGS flag in it. -/
theorem eval_argument_failure_no_effect {nLayer nEmbed nVocab : ℕ}
    (compute : ℕ → StateVec nLayer nEmbed → StateVec nLayer nEmbed × LogitsVec nVocab)
    (st : EvalState nLayer nEmbed) (token : ℕ)
    (state_in : Option (StateVec nLayer nEmbed))
    (state_out : Option (StateVec nLayer nEmbed))
    (logits_out : Option (LogitsVec nVocab))
    (h : state_out = none ∨ nVocab ≤ token) :
    rwkv_eval compute st token state_in state_out logits_out
      = { ok := false,
          st := { last_error := {ErrKind.args},
                  token_index := st.token_index,
                  input_state := st.input_state },
          state_out := state_out, logits_out := logits_out } := by
  rcases h with rfl | htok
  · simp [rwkv_eval]
  · rcases state_out with _ | so
    · simp [rwkv_eval]
    · simp [rwkv_eval, Nat.not_lt, htok]

/-- A minimal concrete graph-compute function for exercising the
evaluator theorems: it echoes the input state and returns zero logits. -/
def compute0 : ℕ → StateVec 1 1 → StateVec 1 1 × LogitsVec 1 :=
  fun _ s => (s, fun _ => 0)

/-- A minimal concrete evaluator context state. -/
def evalState0 : EvalState 1 1 :=
  { last_error := ∅, token_index := 0, input_state := fun _ => 0 }

/-- A concrete caller output-state buffer. -/
def stateBuf0 : StateVec 1 1 := fun _ => 0

/-- Witness for the evaluator argument checks at concrete inputs
(vocabulary size 1: token 1 is out of range, token 0 in range). -/
theorem eval_argument_checks_witness :
    ((rwkv_eval compute0 evalState0 0 none none none).ok = false
      ∧ (rwkv_eval compute0 evalState0 0 none none none).st.last_error
          = {ErrKind.args})
    ∧ ((rwkv_eval compute0 evalState0 1 none (some stateBuf0) none).ok = false
      ∧ (rwkv_eval compute0 evalState0 1 none (some stateBuf0) none).st.last_error
          = {ErrKind.args})
    ∧ (rwkv_eval compute0 evalState0 0 none (some stateBuf0) none).ok = true :=
  ⟨(eval_argument_checks compute0 evalState0 0 none none).1,
   (eval_argument_checks compute0 evalState0 1 none none).2.1 stateBuf0 (by decide),
   (eval_argument_checks compute0 evalState0 0 none none).2.2 stateBuf0 (by decide)⟩

/-- Witness for the no-effect shape of an argument-validation failure at
a concrete input (null `state_out`). -/
theorem eval_argument_failure_no_effect_witness :
    rwkv_eval compute0 evalState0 0 none none none
      = { ok := false,
          st := { last_error := {ErrKind.args},
                  token_index := evalState0.token_index,
                  input_state := evalState0.input_state },
          state_out := none, logits_out := none } :=
  eval_argument_failure_no_effect compute0 evalState0 0 none none none (Or.inl rfl)

/-- C6: in the quantizer's per-record transform, a tensor record is
quantized to the target type exactly when it is 2-D, its name is neither
`emb.weight` nor `head.weight`, and its source type is f32 or f16 — an
f16 payload being converted to f32 before the blockwise quantize call;
every other record is passed through unchanged (type and payload
preserved), so `emb.weight` and `head.weight` are always left in source
precision. -/
theorem quantize_record_policy (target : ℕ) (conv : List ℚ → List ℚ)
    (qc : ℕ → List ℚ → List ℚ) (r : TRec) :
    ((r.header.data_type = TYPE_F32 ∨ r.header.data_type = TYPE_F16) →
      r.header.dim_count = 2 → r.name ≠ "emb.weight" → r.name ≠ "head.weight" →
      quantize_record target conv qc r
        = { header := { r.header with data_type := target },
            name := r.name,
            payload := qc target
              (if r.header.data_type = TYPE_F16 then conv r.payload
               else r.payload) })
    ∧ (¬ ((r.header.data_type = TYPE_F32 ∨ r.header.data_type = TYPE_F16) ∧
          r.header.dim_count = 2 ∧ r.name ≠ "emb.weight" ∧
          r.name ≠ "head.weight") →
        quantize_record target conv qc r = r)
    ∧ ((r.name = "emb.weight" ∨ r.name = "head.weight") →
        quantize_record target conv qc r = r) := by
  refine ⟨fun h1 h2 h3 h4 => ?_, fun hn => ?_, fun hname => ?_⟩
  · unfold quantize_record
    rw [if_pos ⟨h1, h2, h3, h4⟩]
  · unfold quantize_record
    rw [if_neg hn]
  · unfold quantize_record
    rw [if_neg]
    rintro ⟨_, _, h3, h4⟩
    rcases hname with hh | hh
    · exact h3 hh
    · exact h4 hh

/-- A concrete quantizable tensor record (2-D, f32, ordinary weight). -/
def qRec1 : TRec :=
  { header := { dim_count := 2, key_length := 23, data_type := TYPE_F32,
                width := 2, height := 2 },
    name := "blocks.0.att.key.weight", payload := [1, 2, 3, 4] }

/-- A concrete record the quantizer must pass through (`emb.weight`). -/
def qRec2 : TRec :=
  { header := { dim_count := 2, key_length := 10, data_type := TYPE_F32,
                width := 2, height := 2 },
    name := "emb.weight", payload := [1, 2, 3, 4] }

/-- Witness for the quantizer per-record policy at concrete records. -/
theorem quantize_record_policy_witness :
    quantize_record TYPE_Q4_0 id (fun _ p => p) qRec1
      = { header := { qRec1.header with data_type := TYPE_Q4_0 },
          name := qRec1.name,
          payload := (fun _ p => p : ℕ → List ℚ → List ℚ) TYPE_Q4_0
            (if qRec1.header.data_type = TYPE_F16 then id qRec1.payload
             else qRec1.payload) }
    ∧ quantize_record TYPE_Q4_0 id (fun _ p => p) qRec2 = qRec2 :=
  ⟨(quantize_record_policy TYPE_Q4_0 id (fun _ p => p) qRec1).1 (Or.inl rfl) rfl
      (by decide) (by decide),
   (quantize_record_policy TYPE_Q4_0 id (fun _ p => p) qRec2).2.2 (Or.inl rfl)⟩

/-- C8: the tensor-header reader fails with a SHAPE error for every
record whose `dim_count` is neither 1 nor 2 (such as 3), fails with a
DATA_TYPE error when the data-type code is not below the type count, and
for `dim_count = 1` sets the record's height to 1 without consuming a
height word from the stream (the height word is consumed only when
`dim_count = 2`). -/
theorem tensor_header_validation (d kl dt w : ℕ) (rest : List ℕ) :
    (¬ (d = 1 ∨ d = 2) →
      fread_tensor_header (d :: kl :: dt :: w :: rest) = .error (.badShape d)
      ∧ (ThErr.badShape d).flags = {ErrKind.shape})
    ∧ ((d = 1 ∨ d = 2) → TYPE_COUNT ≤ dt →
      fread_tensor_header (d :: kl :: dt :: w :: rest)
        = .error (.typeOutOfRange dt)
      ∧ (ThErr.typeOutOfRange dt).flags = {ErrKind.dataType})
    ∧ (dt < TYPE_COUNT → type_to_ggml dt ≠ GgmlType.UNKNOWN →
      fread_tensor_header (1 :: kl :: dt :: w :: rest)
        = .ok ({ dim_count := 1, key_length := kl, data_type := dt,
                 width := w, height := 1 }, rest)) := by
  refine ⟨fun hd => ⟨?_, rfl⟩, fun hd hdt => ⟨?_, rfl⟩, fun hdt hg => ?_⟩
  · simp [fread_tensor_header, hd]
  · simp [fread_tensor_header, hd, Nat.not_lt, hdt]
  · simp [fread_tensor_header, hdt, hg]

/-- Witness for the tensor-header validation at concrete streams:
`dim_count = 3` gives SHAPE; type code 10 gives DATA_TYPE; a valid 1-D
header gets height 1 with the trailing word left unread. -/
theorem tensor_header_validation_witness :
    (fread_tensor_header [3, 7, 0, 5] = .error (.badShape 3)
      ∧ (ThErr.badShape 3).flags = {ErrKind.shape})
    ∧ (fread_tensor_header [1, 7, 10, 5] = .error (.typeOutOfRange 10)
      ∧ (ThErr.typeOutOfRange 10).flags = {ErrKind.dataType})
    ∧ fread_tensor_header [1, 7, 0, 5, 99]
        = .ok ({ dim_count := 1, key_length := 7, data_type := 0,
                 width := 5, height := 1 }, [99]) :=
  ⟨(tensor_header_validation 3 7 0 5 []).1 (by decide),
   (tensor_header_validation 1 7 10 5 []).2.1 (Or.inl rfl) (by decide),
   (tensor_header_validation 1 7 0 5 [99]).2.2 (by decide) (by decide)⟩

/-- C10: every tensor record whose on-disk data-type code maps to the
unknown backend type (the removed formats Q4_1_O, Q4_2, Q4_3) is rejected
by the tensor-header reader with a DATA_TYPE error, and this rejection
propagates through every read path — the loader's sizing pass, the
loader's binding pass, and the quantizer's streaming rewrite loop — so
the quantizer cannot pass through a tensor stored in a removed format. -/
theorem removed_types_rejected_all_paths (d kl dt w : ℕ) (rest : List ℕ)
    (hd : d = 1 ∨ d = 2)
    (hdt : dt = TYPE_Q4_1_O ∨ dt = TYPE_Q4_2 ∨ dt = TYPE_Q4_3) :
    fread_tensor_header (d :: kl :: dt :: w :: rest) = .error (.removedType dt)
    ∧ (ThErr.removedType dt).flags = {ErrKind.dataType}
    ∧ init_sizing_read_step (d :: kl :: dt :: w :: rest)
        = .error {ErrKind.dataType, ErrKind.modelParams}
    ∧ init_bind_read_step (d :: kl :: dt :: w :: rest)
        = .error {ErrKind.dataType, ErrKind.modelParams}
    ∧ quantize_read_record_step (d :: kl :: dt :: w :: rest)
        = .error {ErrKind.dataType, ErrKind.modelParams} := by
  have hth : fread_tensor_header (d :: kl :: dt :: w :: rest)
      = .error (.removedType dt) := by
    rcases hdt with rfl | rfl | rfl <;>
      simp [fread_tensor_header, hd, TYPE_Q4_1_O, TYPE_Q4_2, TYPE_Q4_3,
        TYPE_COUNT, type_to_ggml]
  have hu : ({ErrKind.dataType} : ErrFlags) ∪ {ErrKind.modelParams}
      = {ErrKind.dataType, ErrKind.modelParams} := by decide
  refine ⟨hth, rfl, ?_, ?_, ?_⟩
  · rw [init_sizing_read_step, hth]
    simp [ThErr.flags, hu]
  · rw [init_bind_read_step, fread_ggml_tensor, hth]
    simp [ThErr.flags, hu]
  · rw [quantize_read_record_step, hth]
    simp [ThErr.flags, hu]

/-- Witness for the removed-format rejection at a concrete stream (a 1-D
tensor header carrying the Q4_1_O type code). -/
theorem removed_types_rejected_all_paths_witness :
    fread_tensor_header [1, 6, 4, 8] = .error (.removedType 4)
    ∧ (ThErr.removedType 4).flags = {ErrKind.dataType}
    ∧ init_sizing_read_step [1, 6, 4, 8]
        = .error {ErrKind.dataType, ErrKind.modelParams}
    ∧ init_bind_read_step [1, 6, 4, 8]
        = .error {ErrKind.dataType, ErrKind.modelParams}
    ∧ quantize_read_record_step [1, 6, 4, 8]
        = .error {ErrKind.dataType, ErrKind.modelParams} :=
  removed_types_rejected_all_paths 1 6 4 8 [] (Or.inl rfl) (Or.inl rfl)

end Rwkv
